import Mathlib

/-!
Verification of the synthesis-orchestration and real-time audio-delivery
pipeline of the AI-ZHIBO voice-streaming host.

The definitions below are a shallow embedding of the Python sources:
  * `src/streaming/audio_streamer.py` (class `AudioStreamer`): the real-time
    audio sink — bounded queue, device callback, latency controller, teardown;
  * `src/voice_engine/voice_manager.py` (class `VoiceManager`): engine
    registry, selection, synthesis dispatch, fallback, voice profiles,
    batch-to-streaming conversion;
  * `src/config/settings.py` (class `VoiceProfile`): the profile value type.

Python floats are modelled as `ℚ`, numpy int16 values as `ℤ` with explicit
wrapping modulo 2^16, byte strings as `List ℕ`, `None`-able values as
`Option`, and the mutable object state of each class as an explicit state
record threaded through the operations.  Where an operation both returns a
value and mutates state, the Lean function returns the pair.  Engine calls
are logged into an invocation trace (`List String` of engine ids) so that
"engine X was invoked exactly once" is a statement about the trace.
-/

namespace AIZhibo

/-! ## Numeric helpers: numpy casts on the ℚ/ℤ model -/

/-- Truncation toward zero of a rational, the rounding `numpy.astype` applies
to a float. -/
def ratTrunc (x : ℚ) : ℤ := Int.tdiv x.num x.den

/-- `np.clip(x, -1.0, 1.0)`. -/
def ratClip (x : ℚ) : ℚ := max (-1) (min x 1)

/-- Wrap an integer into the int16 range [-32768, 32767], the overflow
behaviour of `astype(np.int16)` and of numpy int16 arithmetic. -/
def int16wrap (z : ℤ) : ℤ := (z + 32768) % 65536 - 32768

/-- The two little-endian bytes of an int16 value, as `ndarray.tobytes`
serialises it. -/
def int16ToBytesLE (z : ℤ) : List ℕ :=
  [((z % 65536).toNat) % 256, ((z % 65536).toNat) / 256]

/-! ## The real-time audio sink (`AudioStreamer`)

State record for the fields of `AudioStreamer.__init__`.  Device handles
(`output_stream`, `input_stream`, `pyaudio_instance`) are modelled as a
`Bool` that is `true` while the handle is open; the worker thread as a
`Bool` that is `true` while it runs.  `dropped_warnings` counts the
`"Audio queue full, dropping frame"` warnings `queue_audio` logs (the code
records the drop only through this `logger.warning` call). -/
structure SinkState where
  sample_rate : ℕ
  channels : ℕ
  chunk_size : ℕ
  audio_queue : List (List ℤ)
  output_stream : Bool
  input_stream : Bool
  pyaudio_instance : Bool
  is_streaming : Bool
  is_recording : Bool
  stream_thread : Bool
  latency_ms : ℚ
  buffer_underruns : ℕ
  last_audio_time : ℚ
  dropped_warnings : ℕ
deriving DecidableEq

/-- `self.audio_queue = queue.Queue(maxsize=100)` in `AudioStreamer.__init__`. -/
def queueCapacity : ℕ := 100

/-- Reshape-and-convert step of `AudioStreamer.queue_audio`: a 1-D float
buffer is duplicated per channel when stereo, clipped to [-1, 1], scaled by
32767 and cast to int16. -/
def convertChunk (channels : ℕ) (samples : List ℚ) : List ℤ :=
  let shaped := if channels = 1 then samples else samples.flatMap (fun x => [x, x])
  shaped.map (fun x => int16wrap (ratTrunc (ratClip x * 32767)))

/-- `AudioStreamer.queue_audio`: refuses when not streaming; otherwise
converts the buffer and appends it to the bounded queue when there is room,
or drops it (logging one dropped-frame warning) when the queue is full.
Returns whether the chunk was accepted, never blocks. -/
def queue_audio (s : SinkState) (samples : List ℚ) : Bool × SinkState :=
  if s.is_streaming = false then (false, s)
  else
    let chunk := convertChunk s.channels samples
    if s.audio_queue.length < queueCapacity then
      (true, { s with audio_queue := s.audio_queue ++ [chunk] })
    else
      (false, { s with dropped_warnings := s.dropped_warnings + 1 })

/-- `AudioStreamer._output_callback`: one tick of the device-driven playback
loop.  Pops a chunk when one is queued — serialising it to bytes (the code
rescales the already-int16 samples by 32767 with int16 wraparound) and
padding or truncating to `frame_count * channels * 2` bytes, recording the
pop time — or emits a silence frame of that size and counts one underrun
when the queue is empty.  Returns the produced bytes and the new state. -/
def output_callback (s : SinkState) (frame_count : ℕ) (now : ℚ) :
    List ℕ × SinkState :=
  match s.audio_queue with
  | [] =>
      (List.replicate (frame_count * s.channels * 2) 0,
       { s with buffer_underruns := s.buffer_underruns + 1 })
  | chunk :: rest =>
      let bytes := (chunk.map (fun z => int16wrap (z * 32767))).flatMap int16ToBytesLE
      let required := frame_count * s.channels * 2
      let data :=
        if bytes.length < required then bytes ++ List.replicate (required - bytes.length) 0
        else bytes.take required
      (data, { s with audio_queue := rest, last_audio_time := now })

/-- One pass of `AudioStreamer._stream_worker`: derives the latency metric
from the time of the last successful pop. -/
def stream_worker_tick (s : SinkState) (now : ℚ) : SinkState :=
  if s.last_audio_time > 0 then { s with latency_ms := (now - s.last_audio_time) * 1000 }
  else s

/-- `AudioStreamer.adjust_latency`: the bang-bang latency controller.
Halves the chunk size (floor 256) when latency exceeds 1.5x the target,
doubles it (ceiling 4096) when latency is below 0.5x the target. -/
def adjust_latency (s : SinkState) (target_latency_ms : ℚ) : SinkState :=
  if s.latency_ms > target_latency_ms * 1.5 then
    { s with chunk_size := max 256 (s.chunk_size / 2) }
  else if s.latency_ms < target_latency_ms * 0.5 then
    { s with chunk_size := min 4096 (s.chunk_size * 2) }
  else s

/-- `AudioStreamer.stop_streaming`: clears the streaming/recording flags and
stops and closes both device streams (the handles are set to `None`); the
worker thread is joined but the queue is not touched here. -/
def stop_streaming (s : SinkState) : SinkState :=
  { s with
    is_streaming := false, is_recording := false,
    output_stream := false, input_stream := false }

/-- `AudioStreamer.cleanup`: full teardown — `stop_streaming`, then the
PyAudio instance is terminated and the queue drained empty. -/
def cleanup (s : SinkState) : SinkState :=
  let s1 := stop_streaming s
  { s1 with pyaudio_instance := false, audio_queue := [] }

/-! ### Concrete sink states used by the claim theorems below -/

/-- A sink whose queue holds 100 chunks but on which `stop_streaming` has
already run (the code never drains the queue there), so it is not streaming. -/
def sinkFullStopped : SinkState :=
  { sample_rate := 22050, channels := 1, chunk_size := 1024,
    audio_queue := List.replicate 100 [], output_stream := false,
    input_stream := false, pyaudio_instance := true, is_streaming := false,
    is_recording := false, stream_thread := false, latency_ms := 0,
    buffer_underruns := 0, last_audio_time := 0, dropped_warnings := 0 }

/-- A streaming sink whose queue holds 100 chunks. -/
def sinkFullStreaming : SinkState :=
  { sinkFullStopped with is_streaming := true, output_stream := true }

/-- A streaming sink with an empty queue. -/
def sinkEmptyStreaming : SinkState :=
  { sinkFullStopped with
    audio_queue := [], is_streaming := true, output_stream := true }

/-- A streaming sink measuring 350 ms latency with chunk size 1024. -/
def sink350 : SinkState :=
  { sinkEmptyStreaming with latency_ms := 350 }

/-! ### Claims C3, C4, C6, C7, C8 -/

/-- Claim C3, counterexample: in the sink state reached by filling the queue
to its 100-chunk capacity and then stopping the stream, `queue_audio` on the
full queue returns `false` and leaves the queue full, but does not increment
the dropped-frame counter (the not-streaming early return fires first), so
the claim's "increments by exactly one" fails for this sink state. -/
theorem C3_full_queue_counterexample :
    sinkFullStopped.audio_queue.length = 100
    ∧ ( queue_audio sinkFullStopped [] ).1 = false
    ∧ ( queue_audio sinkFullStopped [] ).2.audio_queue = sinkFullStopped.audio_queue
    ∧ ¬(( queue_audio sinkFullStopped [] ).2.dropped_warnings
        = sinkFullStopped.dropped_warnings + 1) := by
  refine ⟨by decide, rfl, rfl, by decide⟩

/-- Claim C3 as amended: for every sink state that is streaming and whose
bounded queue is at (or beyond) its capacity of 100, `queue_audio` returns
`false` (not accepted), leaves the queue unchanged, and increments the
dropped-frame warning count by exactly one. -/
theorem C3_enqueue_full_drops (s : SinkState) (samples : List ℚ)
    (hs : s.is_streaming = true) (hfull : queueCapacity ≤ s.audio_queue.length) :
    ( queue_audio s samples ).1 = false
    ∧ ( queue_audio s samples ).2.audio_queue = s.audio_queue
    ∧ ( queue_audio s samples ).2.dropped_warnings = s.dropped_warnings + 1 := by
  have hlt : ¬ s.audio_queue.length < queueCapacity := Nat.not_lt.mpr hfull
  simp [queue_audio, hs, hlt]

/-- Witness for C3: a concrete streaming sink with a full queue. -/
theorem C3_enqueue_full_drops_witness :
    ( queue_audio sinkFullStreaming [] ).1 = false
    ∧ ( queue_audio sinkFullStreaming [] ).2.audio_queue = sinkFullStreaming.audio_queue
    ∧ ( queue_audio sinkFullStreaming [] ).2.dropped_warnings
        = sinkFullStreaming.dropped_warnings + 1 :=
  C3_enqueue_full_drops sinkFullStreaming [] rfl (by decide)

/-- Claim C4: at every playback-loop tick where the queue is empty, the
output callback produces a silence buffer of exactly
`frame_count * channels * 2` zero bytes and increments the underrun counter
by exactly one, changing nothing else. -/
theorem C4_underrun_silence (s : SinkState) (frame_count : ℕ) (now : ℚ)
    (h : s.audio_queue = []) :
    ( output_callback s frame_count now ).1
        = List.replicate (frame_count * s.channels * 2) 0
    ∧ ( output_callback s frame_count now ).2.buffer_underruns
        = s.buffer_underruns + 1
    ∧ ( output_callback s frame_count now ).2
        = { s with buffer_underruns := s.buffer_underruns + 1 } := by
  simp [output_callback, h]

/-- Witness for C4: a concrete streaming sink with an empty queue, tick of
512 frames. -/
theorem C4_underrun_silence_witness :
    ( output_callback sinkEmptyStreaming 512 0 ).1
        = List.replicate (512 * sinkEmptyStreaming.channels * 2) 0
    ∧ ( output_callback sinkEmptyStreaming 512 0 ).2.buffer_underruns
        = sinkEmptyStreaming.buffer_underruns + 1
    ∧ ( output_callback sinkEmptyStreaming 512 0 ).2
        = { sinkEmptyStreaming with
              buffer_underruns := sinkEmptyStreaming.buffer_underruns + 1 } :=
  C4_underrun_silence sinkEmptyStreaming 512 0 rfl

/-- Claim C6: the latency controller halves the chunk size down to the floor
256 when latency exceeds 1.5x the target, doubles it up to the ceiling 4096
when latency is below 0.5x the target, and leaves it unchanged in between;
in particular a measured latency of 350 ms against the 200 ms target yields
exactly one halving, 1024 to 512, on that tick. -/
theorem C6_latency_controller (s : SinkState) (target : ℚ) (ht : 0 ≤ target) :
    (s.latency_ms > target * 1.5 →
      (adjust_latency s target).chunk_size = max 256 (s.chunk_size / 2))
    ∧ (s.latency_ms < target * 0.5 →
      (adjust_latency s target).chunk_size = min 4096 (s.chunk_size * 2))
    ∧ (¬ s.latency_ms > target * 1.5 → ¬ s.latency_ms < target * 0.5 →
      adjust_latency s target = s)
    ∧ ((adjust_latency sink350 200).chunk_size = 512
        ∧ sink350.latency_ms = 350 ∧ sink350.chunk_size = 1024) := by
  refine ⟨?_, ?_, ?_, ?_, rfl, rfl⟩
  · intro hhi
    simp [adjust_latency, hhi]
  · intro hlo
    have hnothi : ¬ s.latency_ms > target * 1.5 := by
      have h05 : target * 0.5 ≤ target * 1.5 := by nlinarith
      intro hcon
      exact absurd (lt_trans hlo (lt_of_le_of_lt h05 hcon)) (lt_irrefl _)
    simp [adjust_latency, hnothi, hlo]
  · intro hnothi hnotlo
    simp [adjust_latency, hnothi, hnotlo]
  · have h350 : (350 : ℚ) > 200 * 1.5 := by norm_num
    show (adjust_latency sink350 200).chunk_size = 512
    simp only [adjust_latency, sink350, sinkEmptyStreaming, sinkFullStopped]
    norm_num

/-- Witness for C6: the controller theorem instantiated at the sink measuring
350 ms against the default target of 200 ms. -/
theorem C6_latency_controller_witness :
    ((sink350.latency_ms > 200 * 1.5 →
      (adjust_latency sink350 200).chunk_size = max 256 (sink350.chunk_size / 2))
    ∧ (sink350.latency_ms < 200 * 0.5 →
      (adjust_latency sink350 200).chunk_size = min 4096 (sink350.chunk_size * 2))
    ∧ (¬ sink350.latency_ms > 200 * 1.5 → ¬ sink350.latency_ms < 200 * 0.5 →
      adjust_latency sink350 200 = sink350)
    ∧ ((adjust_latency sink350 200).chunk_size = 512
        ∧ sink350.latency_ms = 350 ∧ sink350.chunk_size = 1024)) :=
  C6_latency_controller sink350 200 (by norm_num)

/-- Claim C7: after the sink's full stop/teardown (`cleanup`, which runs
`stop_streaming` and then drains the queue and releases PyAudio) the sink is
idle, both device handles and the PyAudio instance are closed, the queue is
empty, and every subsequent playback tick can only produce silence. -/
theorem C7_stop_idle_closed_empty (s : SinkState) :
    (cleanup s).is_streaming = false
    ∧ (cleanup s).is_recording = false
    ∧ (cleanup s).output_stream = false
    ∧ (cleanup s).input_stream = false
    ∧ (cleanup s).pyaudio_instance = false
    ∧ (cleanup s).audio_queue = []
    ∧ ∀ frame_count now, ( output_callback (cleanup s) frame_count now ).1
        = List.replicate (frame_count * s.channels * 2) 0 := by
  refine ⟨rfl, rfl, rfl, rfl, rfl, rfl, ?_⟩
  intro frame_count now
  simp [cleanup, stop_streaming, output_callback]

/-- Claim C8: `stop_streaming` succeeds from every sink state and is
idempotent — the state after a second call equals the state after the first,
and the sink is idle (not streaming, not recording) both times. -/
theorem C8_stop_idempotent (s : SinkState) :
    stop_streaming (stop_streaming s) = stop_streaming s
    ∧ (stop_streaming s).is_streaming = false
    ∧ (stop_streaming (stop_streaming s)).is_streaming = false
    ∧ cleanup (cleanup s) = cleanup s := by
  refine ⟨rfl, rfl, rfl, rfl⟩

/-! ## Voice profiles (`config/settings.py`, class `VoiceProfile`)

`VoiceProfile.__init__` stores its eight arguments into the object's fields
unconditionally; there is no validation anywhere in the class. -/
structure VoiceProfile where
  name : String
  gender : String
  age_range : String
  language : String
  pitch : ℚ
  speed : ℚ
  emotion : String
  voice_sample_path : Option String
deriving DecidableEq

/-- The three profiles `VoiceManager._load_default_profiles` registers, in
insertion order, keyed by name as in `self.voice_profiles`. -/
def default_profiles : List (String × VoiceProfile) :=
  [("cute_girl", ⟨"cute_girl", "female", "young", "auto", 1.2, 1.0, "cheerful", none⟩),
   ("asmr_girl", ⟨"asmr_girl", "female", "young", "auto", 0.9, 0.8, "calm", none⟩),
   ("energetic_girl", ⟨"energetic_girl", "female", "young", "auto", 1.3, 1.2, "excited", none⟩)]

/-! ### Claim C5 -/

/-- Claim C5, counterexample: the `VoiceProfile` constructor accepts
non-positive pitch and speed and produces a profile carrying them — so a
constructed profile with `pitch = -1 ≤ 0` and `speed = 0 ≤ 0` exists, and
construction with non-positive values does not fail validation. -/
theorem C5_no_validation_counterexample :
    (VoiceProfile.mk "bad" "female" "young" "auto" (-1) 0 "neutral" none).pitch ≤ 0
    ∧ (VoiceProfile.mk "bad" "female" "young" "auto" (-1) 0 "neutral" none).speed ≤ 0 := by
  constructor <;> norm_num

/-- Claim C5 as amended: `VoiceProfile` construction performs no validation —
it stores the given pitch and speed unchanged, non-positive values included —
while every profile the system itself constructs (the three defaults loaded
by the manager) does satisfy `pitch > 0` and `speed > 0`. -/
theorem C5_construction_stores_fields :
    (∀ (nm g a l : String) (p sp : ℚ) (em : String) (v : Option String),
      (VoiceProfile.mk nm g a l p sp em v).pitch = p
      ∧ (VoiceProfile.mk nm g a l p sp em v).speed = sp)
    ∧ ∀ q ∈ default_profiles.map Prod.snd, 0 < q.pitch ∧ 0 < q.speed := by
  refine ⟨fun nm g a l p sp em v => ⟨rfl, rfl⟩, ?_⟩
  intro q hq
  simp only [default_profiles, List.map_cons, List.map_nil, List.mem_cons,
    List.not_mem_nil, or_false] at hq
  rcases hq with rfl | rfl | rfl <;> exact ⟨by norm_num, by norm_num⟩

/-! ## Batch-to-streaming conversion (`VoiceManager._convert_to_streaming`)

The code scales the float buffer by 32767, casts to int16, serialises to
bytes, and yields successive slices of `chunk_size * 2` bytes. -/

/-- The int16 little-endian byte serialisation of a float audio buffer:
`(audio * 32767).astype(np.int16).tobytes()`. -/
def audioBytes (samples : List ℚ) : List ℕ :=
  (samples.map (fun x => int16wrap (ratTrunc (x * 32767)))).flatMap int16ToBytesLE

/-- Fuel-indexed slicing of a list into successive pieces of `n` elements,
mirroring `for i in range(0, len(bs), n): yield bs[i:i+n]`; the fuel (one
unit per slice, `bs.length` is always enough when `0 < n`) only makes the
recursion structural. -/
def chunkEveryAux : ℕ → List ℕ → ℕ → List (List ℕ)
  | 0, _, _ => []
  | _, [], _ => []
  | fuel + 1, a :: l, n => ((a :: l).take n) :: chunkEveryAux fuel ((a :: l).drop n) n

/-- Slice a byte string into successive pieces of `n` bytes; the last piece
may be shorter. -/
def chunkEvery (bs : List ℕ) (n : ℕ) : List (List ℕ) :=
  chunkEveryAux bs.length bs n

/-- `VoiceManager._convert_to_streaming`: the byte serialisation of the
buffer, sliced into pieces of `chunk_size * 2` bytes (2 bytes per int16
sample). -/
def convert_to_streaming (samples : List ℚ) (chunk_size : ℕ) : List (List ℕ) :=
  chunkEvery (audioBytes samples) (chunk_size * 2)

/-- Slicing with enough fuel concatenates back to the original list. -/
theorem chunkEveryAux_flatten (n : ℕ) (hn : 0 < n) :
    ∀ (fuel : ℕ) (l : List ℕ), l.length ≤ fuel →
      (chunkEveryAux fuel l n).flatten = l := by
  intro fuel
  induction fuel with
  | zero =>
    intro l hl
    have : l = [] := List.eq_nil_of_length_eq_zero (Nat.le_zero.mp hl)
    subst this
    rfl
  | succ f ih =>
    intro l hl
    cases l with
    | nil => rfl
    | cons a t =>
      have hdrop : ((a :: t).drop n).length ≤ f := by
        rw [List.length_drop, List.length_cons]
        simp only [List.length_cons] at hl
        omega
      simp only [chunkEveryAux, List.flatten_cons, ih _ hdrop]
      exact List.take_append_drop n (a :: t)

/-- Every slice but the last holds exactly `n` elements. -/
theorem chunkEveryAux_dropLast (n : ℕ) (_hn : 0 < n) :
    ∀ (fuel : ℕ) (l : List ℕ),
      ∀ c ∈ (chunkEveryAux fuel l n).dropLast, c.length = n := by
  intro fuel
  induction fuel with
  | zero => intro l c hc; simp [chunkEveryAux] at hc
  | succ f ih =>
    intro l c hc
    cases l with
    | nil => simp [chunkEveryAux] at hc
    | cons a t =>
      simp only [chunkEveryAux] at hc
      cases hrest : chunkEveryAux f ((a :: t).drop n) n with
      | nil => rw [hrest] at hc; simp at hc
      | cons r rs =>
        rw [hrest, List.dropLast_cons_of_ne_nil (by simp)] at hc
        rcases List.mem_cons.mp hc with rfl | hmem
        · have hd : (a :: t).drop n ≠ [] := by
            intro he
            rw [he] at hrest
            cases f <;> simp [chunkEveryAux] at hrest
          have hlen : 0 < ((a :: t).drop n).length := List.length_pos.mpr hd
          rw [List.length_drop] at hlen
          rw [List.length_take]
          omega
        · exact ih _ c (hrest ▸ hmem)

/-- Every slice is nonempty and holds at most `n` elements. -/
theorem chunkEveryAux_mem (n : ℕ) (hn : 0 < n) :
    ∀ (fuel : ℕ) (l : List ℕ),
      ∀ c ∈ chunkEveryAux fuel l n, 0 < c.length ∧ c.length ≤ n := by
  intro fuel
  induction fuel with
  | zero => intro l c hc; simp [chunkEveryAux] at hc
  | succ f ih =>
    intro l c hc
    cases l with
    | nil => simp [chunkEveryAux] at hc
    | cons a t =>
      simp only [chunkEveryAux] at hc
      rcases List.mem_cons.mp hc with rfl | hmem
      · rw [List.length_take]
        constructor
        · simp [Nat.lt_min, hn]
        · exact Nat.min_le_left n _
      · exact ih _ c hmem

/-! ### Claim C9 -/

/-- Claim C9: converting a batch buffer to a chunk sequence yields, in
buffer order, chunks of exactly `chunk_size` samples (`chunk_size * 2`
bytes) except for a possibly-shorter (but nonempty) final chunk, and the
concatenation of all chunks is exactly the int16 byte encoding of the
original buffer. -/
theorem C9_convert_preserves_bytes (samples : List ℚ) (chunk_size : ℕ)
    (h : 0 < chunk_size) :
    (convert_to_streaming samples chunk_size).flatten = audioBytes samples
    ∧ (∀ c ∈ (convert_to_streaming samples chunk_size).dropLast,
        c.length = chunk_size * 2)
    ∧ (∀ c ∈ convert_to_streaming samples chunk_size,
        0 < c.length ∧ c.length ≤ chunk_size * 2) := by
  have hn : 0 < chunk_size * 2 := by omega
  exact ⟨chunkEveryAux_flatten _ hn _ _ (Nat.le_refl _),
    fun c hc => chunkEveryAux_dropLast _ hn _ _ c hc,
    fun c hc => chunkEveryAux_mem _ hn _ _ c hc⟩

/-- Witness for C9: the conversion claim at a concrete two-sample buffer and
the code's fixed chunk size 1024. -/
theorem C9_convert_preserves_bytes_witness :
    (convert_to_streaming [1, 1/2] 1024).flatten = audioBytes [1, 1/2]
    ∧ (∀ c ∈ (convert_to_streaming [1, 1/2] 1024).dropLast, c.length = 1024 * 2)
    ∧ (∀ c ∈ convert_to_streaming [1, 1/2] 1024,
        0 < c.length ∧ c.length ≤ 1024 * 2) :=
  C9_convert_preserves_bytes [1, 1/2] 1024 (by decide)

/-! ## Engine adapters and the registry (`voice_engine/voice_manager.py`)

An engine adapter is modelled by its identity, the two `hasattr` capability
facts the manager tests (`synthesize` for batch, `synthesize_streaming` for
incremental), and the behaviour of each method on a request.  A Python call
can return audio, return `None`, or raise; the three outcomes are explicit
because the manager's helpers catch the raise and turn it into `None`. -/

/-- Outcome of one `engine.synthesize(...)` call. -/
inductive BatchResult where
  | ok : List ℚ → BatchResult
  | retNone : BatchResult
  | raises : BatchResult

/-- Outcome of one `engine.synthesize_streaming(...)` call. -/
inductive StreamResult where
  | ok : List (List ℕ) → StreamResult
  | retNone : StreamResult
  | raises : StreamResult

/-- One registered engine adapter.  `id` is unique per registry (one adapter
instance per backend), so id equality models Python object identity. -/
structure Engine where
  id : String
  hasSynthesize : Bool
  hasSynthesizeStreaming : Bool
  synthImpl : String → String → Option VoiceProfile → BatchResult
  streamImpl : String → String → Option VoiceProfile → StreamResult

/-- The registry key of the RealtimeTTS engine, `VoiceEngine.REALTIME_TTS`. -/
def realtimeKey : String := "realtime_tts"

/-- `SynthesisMode` from `voice_manager.py`. -/
inductive SynthesisMode where
  | batch
  | streaming
  | realtime
deriving DecidableEq

/-- What a successful `VoiceManager.synthesize` returns: a whole audio
buffer (batch) or a chunk sequence (streaming/realtime). -/
inductive SynthOutput where
  | buffer : List ℚ → SynthOutput
  | chunks : List (List ℕ) → SynthOutput

/-- The mutable state of a `VoiceManager`: the registry (a dict, modelled as
an association list in insertion order), the current and fallback engine
references, the profile dict, the current profile and the init flag. -/
structure Manager where
  engines : List (String × Engine)
  current_engine : Option Engine
  fallback_engine : Option Engine
  voice_profiles : List (String × VoiceProfile)
  current_profile : Option VoiceProfile
  is_initialized : Bool

/-- Python truthiness of the optional `voice_profile_name` argument: `None`
and the empty string are falsy. -/
def strTruthy : Option String → Bool
  | none => false
  | some s => !s.isEmpty

/-- `VoiceManager._get_voice_profile`: the named profile when the name is
truthy and present; otherwise the current profile when set; otherwise the
first registered profile; otherwise nothing.  Never fails. -/
def get_voice_profile (m : Manager) (profile_name : Option String) :
    Option VoiceProfile :=
  if strTruthy profile_name
      ∧ (profile_name.bind fun k => List.lookup k m.voice_profiles).isSome then
    profile_name.bind fun k => List.lookup k m.voice_profiles
  else if m.current_profile.isSome then m.current_profile
  else if m.voice_profiles.isEmpty then none
  else (m.voice_profiles.head?).map Prod.snd

/-- `VoiceManager._select_engine`: the RealtimeTTS engine for realtime mode
when registered; otherwise the current engine for batch/streaming when set;
otherwise any registered engine; otherwise none.  No capability check is
made. -/
def select_engine (m : Manager) (mode : SynthesisMode) : Option Engine :=
  if mode = SynthesisMode.realtime ∧ (List.lookup realtimeKey m.engines).isSome then
    List.lookup realtimeKey m.engines
  else if (mode = SynthesisMode.batch ∨ mode = SynthesisMode.streaming)
      ∧ m.current_engine.isSome then
    m.current_engine
  else if m.engines.isEmpty then none
  else (m.engines.head?).map Prod.snd

/-- `VoiceManager._synthesize_batch`: invokes `engine.synthesize` when the
engine has it, catching any raise into `None`; otherwise returns `None`
without invoking anything.  The second component is the invocation trace. -/
def synthesize_batch_h (e : Engine) (text lang : String)
    (vp : Option VoiceProfile) : Option (List ℚ) × List String :=
  if e.hasSynthesize then
    match e.synthImpl text lang vp with
    | BatchResult.ok buf => (some buf, [e.id])
    | BatchResult.retNone => (none, [e.id])
    | BatchResult.raises => (none, [e.id])
  else (none, [])

/-- `VoiceManager._synthesize_streaming`: uses `engine.synthesize_streaming`
when present; otherwise falls back to a batch call whose buffer is converted
to chunks (`_convert_to_streaming` with the default chunk size 1024); raises
are caught into `None`. -/
def synthesize_streaming_h (e : Engine) (text lang : String)
    (vp : Option VoiceProfile) : Option (List (List ℕ)) × List String :=
  if e.hasSynthesizeStreaming then
    match e.streamImpl text lang vp with
    | StreamResult.ok cs => (some cs, [e.id])
    | StreamResult.retNone => (none, [e.id])
    | StreamResult.raises => (none, [e.id])
  else if e.hasSynthesize then
    match e.synthImpl text lang vp with
    | BatchResult.ok buf => (some (convert_to_streaming buf 1024), [e.id])
    | BatchResult.retNone => (none, [e.id])
    | BatchResult.raises => (none, [e.id])
  else (none, [])

/-- `VoiceManager._synthesize_realtime`: prefers the registered RealtimeTTS
engine, calling `synthesize_streaming` on it directly (a missing attribute
raises and is caught into `None` before any invocation); without a
registered RealtimeTTS engine it falls back to streaming synthesis on the
selected engine. -/
def synthesize_realtime_h (m : Manager) (e : Engine) (text lang : String)
    (vp : Option VoiceProfile) : Option (List (List ℕ)) × List String :=
  match List.lookup realtimeKey m.engines with
  | some rt =>
      if rt.hasSynthesizeStreaming then
        match rt.streamImpl text lang vp with
        | StreamResult.ok cs => (some cs, [rt.id])
        | StreamResult.retNone => (none, [rt.id])
        | StreamResult.raises => (none, [rt.id])
      else (none, [])
  | none => synthesize_streaming_h e text lang vp

/-- `VoiceManager.synthesize`: checks initialisation, resolves the profile,
selects an engine by mode, and dispatches.  The source wraps this body in a
`try` whose handler calls `_try_fallback`; every callee above already
catches its own exceptions and returns `None` instead of raising, so no
exception can reach that handler and it never runs — the model therefore
has no fallback path here (see `try_fallback` and claim C1). -/
def synthesize (m : Manager) (text : String) (voice_profile_name : Option String)
    (language : String) (mode : SynthesisMode) : Option SynthOutput × List String :=
  if m.is_initialized = false then (none, [])
  else
    let vp := get_voice_profile m voice_profile_name
    match select_engine m mode with
    | none => (none, [])
    | some e =>
      match mode with
      | SynthesisMode.batch =>
          let r := synthesize_batch_h e text language vp
          (r.1.map SynthOutput.buffer, r.2)
      | SynthesisMode.streaming =>
          let r := synthesize_streaming_h e text language vp
          (r.1.map SynthOutput.chunks, r.2)
      | SynthesisMode.realtime =>
          let r := synthesize_realtime_h m e text language vp
          (r.1.map SynthOutput.chunks, r.2)

/-- `VoiceManager._try_fallback`: when a fallback engine exists and is
distinct from the current engine (identity modelled by the unique engine
id), re-dispatches the same request to it; otherwise returns `None`. -/
def try_fallback (m : Manager) (text : String) (voice_profile_name : Option String)
    (language : String) (mode : SynthesisMode) : Option SynthOutput × List String :=
  match m.fallback_engine with
  | none => (none, [])
  | some fe =>
    if (match m.current_engine with
        | some ce => fe.id != ce.id
        | none => true : Bool) then
      let vp := get_voice_profile m voice_profile_name
      match mode with
      | SynthesisMode.batch =>
          let r := synthesize_batch_h fe text language vp
          (r.1.map SynthOutput.buffer, r.2)
      | SynthesisMode.streaming =>
          let r := synthesize_streaming_h fe text language vp
          (r.1.map SynthOutput.chunks, r.2)
      | SynthesisMode.realtime =>
          let r := synthesize_realtime_h m fe text language vp
          (r.1.map SynthOutput.chunks, r.2)
    else (none, [])

/-! ### Concrete registry scenarios used by the claim theorems -/

/-- A primary engine whose every synthesis call raises. -/
def e1_alwaysRaises : Engine :=
  { id := "e1", hasSynthesize := true, hasSynthesizeStreaming := false,
    synthImpl := fun _ _ _ => BatchResult.raises,
    streamImpl := fun _ _ _ => StreamResult.raises }

/-- A fallback engine whose every synthesis call succeeds. -/
def e2_alwaysSucceeds : Engine :=
  { id := "e2", hasSynthesize := true, hasSynthesizeStreaming := true,
    synthImpl := fun _ _ _ => BatchResult.ok [1],
    streamImpl := fun _ _ _ => StreamResult.ok [[1, 0]] }

/-- Registry with the always-raising primary and the always-succeeding,
distinct fallback. -/
def mgrFallback : Manager :=
  { engines := [("e1", e1_alwaysRaises), ("e2", e2_alwaysSucceeds)],
    current_engine := some e1_alwaysRaises,
    fallback_engine := some e2_alwaysSucceeds,
    voice_profiles := [], current_profile := none, is_initialized := true }

/-- A batch-only primary engine (no `synthesize_streaming` attribute) whose
batch synthesis always succeeds. -/
def e1_batchOnly : Engine :=
  { id := "e1", hasSynthesize := true, hasSynthesizeStreaming := false,
    synthImpl := fun _ _ _ => BatchResult.ok [1],
    streamImpl := fun _ _ _ => StreamResult.retNone }

/-- An incremental-capable fallback engine that always succeeds. -/
def e2_incremental : Engine :=
  { id := "e2", hasSynthesize := true, hasSynthesizeStreaming := true,
    synthImpl := fun _ _ _ => BatchResult.ok [1],
    streamImpl := fun _ _ _ => StreamResult.ok [[0, 0]] }

/-- Registry with the batch-only primary E1 and the incremental fallback E2
of the spec's streaming scenario. -/
def mgrStreamScenario : Manager :=
  { engines := [("e1", e1_batchOnly), ("e2", e2_incremental)],
    current_engine := some e1_batchOnly,
    fallback_engine := some e2_incremental,
    voice_profiles := [], current_profile := none, is_initialized := true }

/-- A manager carrying the three default profiles, the default current
profile, and one working engine. -/
def mgrProfiles : Manager :=
  { engines := [("e2", e2_incremental)], current_engine := some e2_incremental,
    fallback_engine := none, voice_profiles := default_profiles,
    current_profile := List.lookup "cute_girl" default_profiles,
    is_initialized := true }

/-! ### Claims C1, C2, C10 -/

/-- Claim C1, evaluated at the failing input: with the always-raising
primary `e1` and the distinct always-succeeding fallback `e2`, a batch
`synthesize` call returns `None` after invoking only `e1` — the fallback is
never invoked, because `_synthesize_batch` catches the engine's exception
and returns `None`, so no exception ever reaches the handler in
`synthesize` that would call `_try_fallback`.  The second conjunct shows
`_try_fallback` itself would have succeeded via one `e2` invocation had it
been reached: the fallback path is dead code for engine failures. -/
theorem C1_fallback_never_reached :
    synthesize mgrFallback "hello" none "auto" SynthesisMode.batch = (none, ["e1"])
    ∧ try_fallback mgrFallback "hello" none "auto" SynthesisMode.batch
        = (some (SynthOutput.buffer [1]), ["e2"]) :=
  ⟨rfl, rfl⟩

/-- Claim C2, counterexample: in the registry with batch-only current engine
E1 and incremental engine E2, engine selection for streaming mode returns E1
— an engine lacking the incremental capability streaming mode requires even
though the capable E2 is registered — and the streaming request invokes
exactly E1, never E2. -/
theorem C2_selection_ignores_capability :
    (select_engine mgrStreamScenario SynthesisMode.streaming).map Engine.id = some "e1"
    ∧ (select_engine mgrStreamScenario SynthesisMode.streaming).map
        Engine.hasSynthesizeStreaming = some false
    ∧ (synthesize mgrStreamScenario "hi" none "auto" SynthesisMode.streaming).2 = ["e1"]
    ∧ e2_incremental.hasSynthesizeStreaming = true :=
  ⟨rfl, rfl, rfl, rfl⟩

/-- Claim C2 as amended: engine selection performs no capability check — for
streaming (and batch) mode it returns the current engine whenever one is
set; a streaming request on a batch-only current engine invokes exactly that
engine (its buffer is converted to chunks) and no other engine. -/
theorem C2_streaming_uses_current_engine (m : Manager) (e : Engine)
    (hc : m.current_engine = some e) (hns : e.hasSynthesizeStreaming = false)
    (hb : e.hasSynthesize = true) :
    select_engine m SynthesisMode.streaming = some e
    ∧ select_engine m SynthesisMode.batch = some e
    ∧ ∀ text lang vp, (synthesize_streaming_h e text lang vp).2 = [e.id] := by
  refine ⟨by simp [select_engine, hc], by simp [select_engine, hc], ?_⟩
  intro text lang vp
  simp only [synthesize_streaming_h, hns, hb]
  cases e.synthImpl text lang vp <;> simp

/-- Witness for C2's amended claim: the concrete E1/E2 registry. -/
theorem C2_streaming_uses_current_engine_witness :
    select_engine mgrStreamScenario SynthesisMode.streaming = some e1_batchOnly
    ∧ select_engine mgrStreamScenario SynthesisMode.batch = some e1_batchOnly
    ∧ ∀ text lang vp, (synthesize_streaming_h e1_batchOnly text lang vp).2
        = [e1_batchOnly.id] :=
  C2_streaming_uses_current_engine mgrStreamScenario e1_batchOnly rfl rfl rfl

/-- Claim C10: a `voice_profile_name` that is not a key of the profile map
(`None` included) never makes the call fail on that account — the lookup
behaves exactly as if no name had been passed, substituting the current
profile when set, else the first registered profile, else no profile, and
`synthesize` proceeds identically with that substitute. -/
theorem C10_unknown_profile_substitutes (m : Manager) (nm : String)
    (h : List.lookup nm m.voice_profiles = none) :
    get_voice_profile m (some nm) = get_voice_profile m none
    ∧ get_voice_profile m none =
        (if m.current_profile.isSome then m.current_profile
         else if m.voice_profiles.isEmpty then none
         else (m.voice_profiles.head?).map Prod.snd)
    ∧ ∀ text lang mode, synthesize m text (some nm) lang mode
        = synthesize m text none lang mode := by
  have h1 : get_voice_profile m (some nm) = get_voice_profile m none := by
    simp [get_voice_profile, h, strTruthy]
  refine ⟨h1, by simp [get_voice_profile, strTruthy], ?_⟩
  intro text lang mode
  simp only [synthesize, h1]

/-- Witness for C10: the default-profile manager asked for the unknown
profile name `no_such_profile`. -/
theorem C10_unknown_profile_substitutes_witness :
    get_voice_profile mgrProfiles (some "no_such_profile")
      = get_voice_profile mgrProfiles none :=
  (C10_unknown_profile_substitutes mgrProfiles "no_such_profile" (by decide)).1

end AIZhibo
